import Mathlib

/-!
Shallow embedding of the weatherbox scheduling/backoff/orchestration kernel:
`src/weatherbox/weather/retry_scheduler.py` (RetryScheduler, UpdateWindowScheduler)
and `src/weatherbox/display_service.py` (WeatherDisplayService).

Timestamps are modelled as `Nat` seconds (the Python code injects
`datetime.now()`; here the clock value is an explicit parameter, matching the
spec's clock-injection design note).  `timedelta` values are `Nat` seconds.
-/

namespace Weatherbox

/-- The `RetryState` enum from retry_scheduler.py. -/
inductive RetryState where
  | idle
  | backoff1m
  | backoff5m
  | backoff10m
  | exhausted
deriving DecidableEq, Repr

/-- The `.value` string of each enum member. -/
def RetryState.value : RetryState → String
  | .idle => "idle"
  | .backoff1m => "backoff_1m"
  | .backoff5m => "backoff_5m"
  | .backoff10m => "backoff_10m"
  | .exhausted => "backoff_exhausted"

/-- The `RetryScheduler` instance fields. -/
structure RetryScheduler where
  max_retry_hours : Nat
  state : RetryState
  attempt_count : Nat
  phase_1_attempts : Nat
  phase_2_attempts : Nat
  started_at : Option Nat
  last_retry_at : Option Nat
deriving DecidableEq, Repr

/-- Constructor `RetryScheduler.__init__(max_retry_hours)`. -/
def RetryScheduler.init (maxHours : Nat) : RetryScheduler :=
  { max_retry_hours := maxHours
    state := .idle
    attempt_count := 0
    phase_1_attempts := 5
    phase_2_attempts := 12
    started_at := none
    last_retry_at := none }

/-- Method `RetryScheduler.reset`. -/
def RetryScheduler.reset (s : RetryScheduler) : RetryScheduler :=
  { s with state := .idle, attempt_count := 0, started_at := none, last_retry_at := none }

/-- Method `RetryScheduler.record_failure`, with the wall clock passed explicitly.
Returns the interval (seconds) together with the updated scheduler.
`elapsed > max_retry_hours * 3600` in Python becomes the `Nat` comparison
`max_retry_hours * 3600 < now - started` (for `now < started` both sides agree:
a negative elapsed is never greater than the nonnegative bound). -/
def RetryScheduler.record_failure (s : RetryScheduler) (now : Nat) : Nat × RetryScheduler :=
  let started := s.started_at.getD now
  let s1 : RetryScheduler :=
    { s with started_at := some started
             attempt_count := s.attempt_count + 1
             last_retry_at := some now }
  let elapsed := now - started
  if s1.max_retry_hours * 3600 < elapsed then
    (s1.max_retry_hours * 3600, { s1 with state := .exhausted })
  else if s1.attempt_count ≤ s1.phase_1_attempts then
    (60, { s1 with state := .backoff1m })
  else if s1.attempt_count ≤ s1.phase_1_attempts + s1.phase_2_attempts then
    (300, { s1 with state := .backoff5m })
  else
    (600, { s1 with state := .backoff10m })

/-- Method `RetryScheduler.record_success` (logs, then calls `reset`). -/
def RetryScheduler.record_success (s : RetryScheduler) : RetryScheduler :=
  s.reset

/-- Method `RetryScheduler.is_retry_exhausted`. -/
def RetryScheduler.is_retry_exhausted (s : RetryScheduler) : Bool :=
  s.state = RetryState.exhausted

/-- Python `dt.time()`: seconds-of-day of an absolute timestamp. -/
def timeOfDay (dt : Nat) : Nat := dt % 86400

/-- The `UpdateWindowScheduler` instance fields.  `daytime_start`/`daytime_end`
are seconds-of-day (the HH:MM parse of the constructor), `next_update_at` is
an absolute timestamp. -/
structure UpdateWindowScheduler where
  daytime_start : Nat
  daytime_end : Nat
  night_interval_minutes : Nat
  daytime_interval_minutes : Nat
  next_update_at : Nat
deriving DecidableEq, Repr

/-- Helper `UpdateWindowScheduler._parse_time("HH:MM")` as seconds-of-day. -/
def parseTimeHM (h m : Nat) : Nat := h * 3600 + m * 60

/-- Method `UpdateWindowScheduler.is_daytime`.  The source has two branches: the
plain window when `daytime_start <= daytime_end`, and a midnight-wrapping
window otherwise. -/
def UpdateWindowScheduler.is_daytime (w : UpdateWindowScheduler) (dt : Nat) : Bool :=
  let t := timeOfDay dt
  if w.daytime_start ≤ w.daytime_end then
    decide (w.daytime_start ≤ t ∧ t < w.daytime_end)
  else
    decide (w.daytime_start ≤ t ∨ t < w.daytime_end)

/-- Method `UpdateWindowScheduler.should_update_now`: `dt >= next_update_at`. -/
def UpdateWindowScheduler.should_update_now (w : UpdateWindowScheduler) (dt : Nat) : Bool :=
  w.next_update_at ≤ dt

/-- Method `UpdateWindowScheduler.record_update`: picks the interval from the window
at `dt`, sets `next_update_at = dt + interval`, returns the interval. -/
def UpdateWindowScheduler.record_update (w : UpdateWindowScheduler) (dt : Nat) :
    Nat × UpdateWindowScheduler :=
  let interval :=
    if w.is_daytime dt then w.daytime_interval_minutes * 60
    else w.night_interval_minutes * 60
  (interval, { w with next_update_at := dt + interval })

/-- Method `UpdateWindowScheduler.get_time_until_next_update`. -/
def UpdateWindowScheduler.get_time_until_next_update (w : UpdateWindowScheduler) (dt : Nat) : Nat :=
  if dt < w.next_update_at then w.next_update_at - dt else 0

/-- Method `UpdateWindowScheduler.next_update_in_minutes`. -/
def UpdateWindowScheduler.next_update_in_minutes (w : UpdateWindowScheduler) (dt : Nat) : Nat :=
  w.get_time_until_next_update dt / 60

/-!
The orchestrator, `WeatherDisplayService` from display_service.py.  Forecast
day summaries are opaque payloads, modelled as `Nat` identifiers; a fetch
outcome is `Option (List Nat)` (`none` is Python's `None`).  Python truthiness
of a forecast (`if forecast:`) is false for both `None` and the empty list.
-/

/-- Python truthiness of an `Optional[List]` value. -/
def fetchTruthy : Option (List Nat) → Bool
  | none => false
  | some l => !l.isEmpty

/-- Python truthiness applied to `self._last_forecast` when building the
`last_forecast` field of a diagnostics report: `None` stays `None`, an empty
list is falsy and also yields `None`. -/
def truthyForecast : Option (List Nat) → Option (List Nat)
  | none => none
  | some l => if l.isEmpty then none else some l

/-- Python `datetime.now().isoformat().replace(':', '-')`: every colon of the
ISO string becomes a hyphen. -/
def pyReplaceColon (s : String) : String :=
  String.mk (s.toList.map (fun c => if c = ':' then '-' else c))

/-- The error report dict built by `_save_error_diagnostics` (its exact keys). -/
structure DiagReport where
  timestamp : String
  error : String
  retry_state : String
  attempt_count : Nat
  last_forecast : Option (List Nat)
deriving DecidableEq, Repr

/-- The error bitmap built by `display_error`: an 8x8 grid, 255 on both
diagonals (`set_pixel(i, i, 255)` and `set_pixel(7 - i, i, 255)` over a blank
bitmap), 0 elsewhere. -/
def errorBitmap : List (List Nat) :=
  (List.range 8).map (fun y => (List.range 8).map (fun x => if x = y ∨ x + y = 7 then 255 else 0))

/-- A `display.render_all(bitmaps)` invocation observed during a cycle:
either the forecast layout for a fetched forecast, or the error pattern
(the concrete list of bitmaps sent). -/
inductive DisplayWrite where
  | forecast (f : List Nat)
  | errorPattern (bitmaps : List (List (List Nat)))
deriving DecidableEq, Repr

/-- The `WeatherDisplayService` state owned by the orchestrator (the collaborator
adapters are modelled by per-cycle inputs, see `CycleEnv`). -/
structure WeatherDisplayService where
  retry_scheduler : RetryScheduler
  update_scheduler : UpdateWindowScheduler
  last_forecast : Option (List Nat)
  diagnostics_dir : Option String
deriving DecidableEq, Repr

/-- Collaborator behaviour during one cycle: the fetch outcome, the result of
`display.render_all` for the forecast render and for the error render, and the
wall-clock ISO string read when a diagnostics report is written. -/
structure CycleEnv where
  fetchResult : Option (List Nat)
  renderOk : Bool
  errorRenderOk : Bool
  nowIso : String
deriving DecidableEq, Repr

/-- Method `WeatherDisplayService._save_error_diagnostics`: returns the report that
gets written, or `none` when nothing is written (no diagnostics dir). -/
def WeatherDisplayService.save_error_diagnostics (svc : WeatherDisplayService)
    (nowIso : String) (msg : String) : Option DiagReport :=
  match svc.diagnostics_dir with
  | none => none
  | some _ =>
      some { timestamp := pyReplaceColon nowIso
             error := msg
             retry_state := svc.retry_scheduler.state.value
             attempt_count := svc.retry_scheduler.attempt_count
             last_forecast := truthyForecast svc.last_forecast }

/-- Method `WeatherDisplayService.display_error`: renders the error bitmap to all
four matrices; on render success saves diagnostics.  Returns the render
success flag and the report written (if any). -/
def WeatherDisplayService.display_error (svc : WeatherDisplayService)
    (renderOk : Bool) (nowIso : String) (msg : String) : Bool × Option DiagReport :=
  if renderOk then (true, svc.save_error_diagnostics nowIso msg)
  else (false, none)

/-- Observable outcome of one `run_cycle` call: the Python return value, the
control path taken, the `render_all` invocations issued, the diagnostics
report written (if any), and the post-state. -/
structure CycleOutcome where
  retval : Bool
  skipped : Bool
  fetchAttempted : Bool
  displayWrites : List DisplayWrite
  report : Option DiagReport
  svc : WeatherDisplayService
deriving DecidableEq, Repr

/-- Method `WeatherDisplayService.run_cycle`, one synchronous tick at time `now`:
1. gate on `update_scheduler.should_update_now` (early return `True`, nothing
   mutated);
2. `fetch_forecast`: on a truthy forecast, `retry_scheduler.record_success`
   and overwrite `_last_forecast`; otherwise `retry_scheduler.record_failure`
   (the returned interval is only logged);
3. on fetch success, `render_forecast`; if it succeeds,
   `update_scheduler.record_update(now)` and return `True`, else return
   `False` with no further mutation;
4. on fetch failure, if retries are exhausted, `display_error` (error pattern
   to all matrices, diagnostics on render success) and return `False`; else
   leave the display as-is and return `True`. -/
def WeatherDisplayService.run_cycle (svc : WeatherDisplayService) (now : Nat)
    (env : CycleEnv) : CycleOutcome :=
  if !svc.update_scheduler.should_update_now now then
    { retval := true, skipped := true, fetchAttempted := false
      displayWrites := [], report := none, svc := svc }
  else if fetchTruthy env.fetchResult then
    let f := env.fetchResult.getD []
    let svc1 : WeatherDisplayService :=
      { svc with retry_scheduler := svc.retry_scheduler.record_success
                 last_forecast := some f }
    if env.renderOk then
      let svc2 : WeatherDisplayService :=
        { svc1 with update_scheduler := (svc1.update_scheduler.record_update now).2 }
      { retval := true, skipped := false, fetchAttempted := true
        displayWrites := [.forecast f], report := none, svc := svc2 }
    else
      { retval := false, skipped := false, fetchAttempted := true
        displayWrites := [.forecast f], report := none, svc := svc1 }
  else
    let rs := (svc.retry_scheduler.record_failure now).2
    let svc1 : WeatherDisplayService := { svc with retry_scheduler := rs }
    if rs.is_retry_exhausted then
      let res := svc1.display_error env.errorRenderOk env.nowIso "Retries exceeded"
      { retval := false, skipped := false, fetchAttempted := true
        displayWrites := [.errorPattern (List.replicate 4 errorBitmap)]
        report := res.2, svc := svc1 }
    else
      { retval := true, skipped := false, fetchAttempted := true
        displayWrites := [], report := none, svc := svc1 }

/-- The scheduler-related slice of `WeatherDisplayService.get_status`. -/
structure StatusSnapshot where
  retry_state : String
  retry_attempt : Nat
  last_forecast_count : Nat
  next_update_minutes : Nat
deriving DecidableEq, Repr

/-- Method `WeatherDisplayService.get_status` (scheduler-related fields). -/
def WeatherDisplayService.get_status (svc : WeatherDisplayService) (now : Nat) :
    StatusSnapshot :=
  { retry_state := svc.retry_scheduler.state.value
    retry_attempt := svc.retry_scheduler.attempt_count
    last_forecast_count := match svc.last_forecast with
      | some l => l.length
      | none => 0
    next_update_minutes := svc.update_scheduler.next_update_in_minutes now }

/-- Folding a sequence of `record_failure` calls (at the listed times) over a
scheduler state. -/
def applyFailures (s : RetryScheduler) (ts : List Nat) : RetryScheduler :=
  ts.foldl (fun s t => (s.record_failure t).2) s

/-- The `i`-th `record_failure` call (0-based) of a failure trace at times
`ts`, starting from a freshly constructed scheduler: its returned interval and
resulting state. -/
def failStep (maxH : Nat) (ts : List Nat) (i : Nat) : Nat × RetryScheduler :=
  (applyFailures (RetryScheduler.init maxH) (ts.take i)).record_failure (ts.getD i 0)

/-- The `attemptCount == 0 ⇔ state == Idle` invariant. -/
def retryIdleInv (s : RetryScheduler) : Prop :=
  s.attempt_count = 0 ↔ s.state = RetryState.idle

/-- A scheduler driven to exhaustion by its own `record_failure` calls: a
streak starting at `t0 = 0` with a second failure at `t0 + 25 h = 90000 s`,
beyond the 24-hour maximum. -/
def exhaustedRetry : RetryScheduler :=
  applyFailures (RetryScheduler.init 24) [0, 90000]

/-- A scheduler one failure into a streak started at time 0. -/
def oneFailureRetry : RetryScheduler :=
  applyFailures (RetryScheduler.init 24) [0]

/-- An environment where the fetch collaborator fails and both display
renders would succeed. -/
def failEnv : CycleEnv :=
  { fetchResult := none, renderOk := true, errorRenderOk := true
    nowIso := "2026-10-12T14:30:00" }

/-- An orchestrator whose backoff streak is exhausted but whose cadence
scheduler was constructed with `next_update_at` still in the future
(the constructor's testing override). -/
def gatedErrorService : WeatherDisplayService :=
  { retry_scheduler := exhaustedRetry
    update_scheduler := UpdateWindowScheduler.mk 21600 82800 60 5 200000
    last_forecast := none
    diagnostics_dir := some "diagnostics" }

/-- An orchestrator two failures into a backoff streak, with the cadence gate
open (`next_update_at = 0`). -/
def phase1Service : WeatherDisplayService :=
  { retry_scheduler := applyFailures (RetryScheduler.init 24) [0, 60]
    update_scheduler := UpdateWindowScheduler.mk 21600 82800 60 5 0
    last_forecast := none
    diagnostics_dir := none }

/-- An environment where the fetch succeeds with a three-day forecast but the
subsequent render fails. -/
def renderFailEnv : CycleEnv :=
  { fetchResult := some [1, 2, 3], renderOk := false, errorRenderOk := true
    nowIso := "2026-10-12T14:30:00" }

/-- An orchestrator one failure into a streak started at time 0, cadence gate
open, with a last-known forecast and a diagnostics directory. -/
def dueService : WeatherDisplayService :=
  { retry_scheduler := oneFailureRetry
    update_scheduler := UpdateWindowScheduler.mk 21600 82800 60 5 0
    last_forecast := some [7, 8]
    diagnostics_dir := some "diagnostics" }

/-- An environment where the fetch fails and the error-pattern render to the
display also fails. -/
def errorRenderFailEnv : CycleEnv :=
  { fetchResult := none, renderOk := true, errorRenderOk := false
    nowIso := "2026-10-12T14:30:00" }

/-- Specification-side predicate: the string starts with an ISO-8601 extended
date-time, `YYYY-MM-DDTHH:MM:SS` — digits everywhere except `-` at positions
4 and 7, `T` at position 10 and `:` at positions 13 and 16. -/
def isISO8601DateTime (s : String) : Bool :=
  let cs := s.toList
  decide (19 ≤ cs.length) &&
  (cs.getD 4 'x' == '-') && (cs.getD 7 'x' == '-') && (cs.getD 10 'x' == 'T') &&
  (cs.getD 13 'x' == ':') && (cs.getD 16 'x' == ':') &&
  ((List.range 19).all (fun i =>
    (i == 4) || (i == 7) || (i == 10) || (i == 13) || (i == 16) ||
    (cs.getD i 'x').isDigit))

/-!  ## Path lemmas for `run_cycle` -/

theorem run_cycle_skip (svc : WeatherDisplayService) (now : Nat) (env : CycleEnv)
    (h : svc.update_scheduler.should_update_now now = false) :
    svc.run_cycle now env =
      { retval := true, skipped := true, fetchAttempted := false
        displayWrites := [], report := none, svc := svc } := by
  unfold WeatherDisplayService.run_cycle
  simp [h]

theorem run_cycle_due (svc : WeatherDisplayService) (now : Nat) (env : CycleEnv)
    (h : svc.update_scheduler.should_update_now now = true) :
    (svc.run_cycle now env).skipped = false ∧
    (svc.run_cycle now env).fetchAttempted = true := by
  unfold WeatherDisplayService.run_cycle
  simp only [h, Bool.not_true, Bool.false_eq_true, if_false]
  split_ifs <;> simp

theorem run_cycle_render_ok (svc : WeatherDisplayService) (now : Nat) (env : CycleEnv)
    (hgate : svc.update_scheduler.should_update_now now = true)
    (hfetch : fetchTruthy env.fetchResult = true)
    (hrender : env.renderOk = true) :
    svc.run_cycle now env =
      { retval := true, skipped := false, fetchAttempted := true
        displayWrites := [DisplayWrite.forecast (env.fetchResult.getD [])], report := none
        svc := { svc with
                 retry_scheduler := svc.retry_scheduler.record_success
                 last_forecast := some (env.fetchResult.getD [])
                 update_scheduler := (svc.update_scheduler.record_update now).2 } } := by
  unfold WeatherDisplayService.run_cycle
  simp [hgate, hfetch, hrender]

theorem run_cycle_render_fail (svc : WeatherDisplayService) (now : Nat) (env : CycleEnv)
    (hgate : svc.update_scheduler.should_update_now now = true)
    (hfetch : fetchTruthy env.fetchResult = true)
    (hrender : env.renderOk = false) :
    svc.run_cycle now env =
      { retval := false, skipped := false, fetchAttempted := true
        displayWrites := [DisplayWrite.forecast (env.fetchResult.getD [])], report := none
        svc := { svc with
                 retry_scheduler := svc.retry_scheduler.record_success
                 last_forecast := some (env.fetchResult.getD []) } } := by
  unfold WeatherDisplayService.run_cycle
  simp [hgate, hfetch, hrender]

theorem run_cycle_fail_exhausted (svc : WeatherDisplayService) (now : Nat) (env : CycleEnv)
    (hgate : svc.update_scheduler.should_update_now now = true)
    (hfetch : fetchTruthy env.fetchResult = false)
    (hex : (svc.retry_scheduler.record_failure now).2.is_retry_exhausted = true) :
    svc.run_cycle now env =
      { retval := false, skipped := false, fetchAttempted := true
        displayWrites := [DisplayWrite.errorPattern (List.replicate 4 errorBitmap)]
        report :=
          if env.errorRenderOk then
            ({ svc with retry_scheduler := (svc.retry_scheduler.record_failure now).2 } :
              WeatherDisplayService).save_error_diagnostics env.nowIso "Retries exceeded"
          else none
        svc := { svc with
                 retry_scheduler := (svc.retry_scheduler.record_failure now).2 } } := by
  unfold WeatherDisplayService.run_cycle WeatherDisplayService.display_error
  simp [hgate, hfetch, hex]
  split_ifs <;> simp

theorem run_cycle_fail_waiting (svc : WeatherDisplayService) (now : Nat) (env : CycleEnv)
    (hgate : svc.update_scheduler.should_update_now now = true)
    (hfetch : fetchTruthy env.fetchResult = false)
    (hex : (svc.retry_scheduler.record_failure now).2.is_retry_exhausted = false) :
    svc.run_cycle now env =
      { retval := true, skipped := false, fetchAttempted := true
        displayWrites := [], report := none
        svc := { svc with
                 retry_scheduler := (svc.retry_scheduler.record_failure now).2 } } := by
  unfold WeatherDisplayService.run_cycle
  simp [hgate, hfetch, hex]

/-!  ## Theorems about the cadence scheduler -/

/-- C3 (counterexample): the claim says `is_daytime(now)` is
`daytimeStart <= time_of_day(now) < daytimeEnd` for *every* configured window,
never wrapping midnight even when `daytimeStart > daytimeEnd`.  The code's
wrap branch refutes this: with start 23:00, end 06:00 and now 23:30 the code
returns `true` while the claimed formula is false. -/
theorem is_daytime_wrap_counterexample :
    (UpdateWindowScheduler.mk 82800 21600 60 5 0).is_daytime 84600 = true ∧
    ¬ (82800 ≤ timeOfDay 84600 ∧ timeOfDay 84600 < 21600) := by
  decide

/-- C3 (amended): when `daytime_start ≤ daytime_end`, `is_daytime` is exactly
the half-open test `daytime_start ≤ time_of_day(now) < daytime_end` (start
inclusive, end exclusive); when `daytime_start > daytime_end` the window wraps
midnight and `is_daytime` holds exactly when `time_of_day(now) ≥ daytime_start`
or `time_of_day(now) < daytime_end`. -/
theorem is_daytime_characterization (w : UpdateWindowScheduler) (dt : Nat) :
    (w.daytime_start ≤ w.daytime_end →
      (w.is_daytime dt = true ↔
        (w.daytime_start ≤ timeOfDay dt ∧ timeOfDay dt < w.daytime_end))) ∧
    (w.daytime_end < w.daytime_start →
      (w.is_daytime dt = true ↔
        (w.daytime_start ≤ timeOfDay dt ∨ timeOfDay dt < w.daytime_end))) := by
  constructor
  · intro hle
    simp [UpdateWindowScheduler.is_daytime, hle]
  · intro hlt
    have : ¬ w.daytime_start ≤ w.daytime_end := by omega
    simp [UpdateWindowScheduler.is_daytime, this]

/-- C3 (witness): the amended characterization applied to the 06:00–23:00
window, together with the four boundary evaluations from the claim
(05:59:59, 06:00:00, 22:59:59, 23:00:00). -/
theorem is_daytime_characterization_witness :
    ((UpdateWindowScheduler.mk 21600 82800 60 5 0).is_daytime 21600 = true) ∧
    ((UpdateWindowScheduler.mk 21600 82800 60 5 0).is_daytime 21599 = false ∧
     (UpdateWindowScheduler.mk 21600 82800 60 5 0).is_daytime 82799 = true ∧
     (UpdateWindowScheduler.mk 21600 82800 60 5 0).is_daytime 82800 = false) :=
  ⟨((is_daytime_characterization (UpdateWindowScheduler.mk 21600 82800 60 5 0) 21600).1
      (by decide)).2 (by decide),
   by decide⟩

/-- C4: after `record_update(now)` the scheduler satisfies
`next_update_at = now + interval` where `interval` is the daytime interval if
`is_daytime(now)` and the night interval otherwise — chosen at the moment of
the call, independently of the previous `next_update_at` — and `record_update`
returns that interval.  The final conjuncts are end-to-end scenario A: with
window 06:00–23:00, day interval 5 min, night interval 60 min, recording at
22:55 (82500 s) sets the next run to 23:00 (82800 s); `should_update_now` is
true at 23:00; recording again at 23:00 yields the 60-minute interval and
`next_update_at = 86400 s` (midnight of the next day). -/
theorem record_update_spec (w : UpdateWindowScheduler) (dt : Nat) :
    ((w.record_update dt).2.next_update_at = dt + (w.record_update dt).1 ∧
     (w.record_update dt).1 =
       (if w.is_daytime dt then w.daytime_interval_minutes * 60
        else w.night_interval_minutes * 60) ∧
     (∀ n : Nat, (({ w with next_update_at := n } :
        UpdateWindowScheduler).record_update dt).1 = (w.record_update dt).1)) ∧
    (((UpdateWindowScheduler.mk 21600 82800 60 5 0).record_update 82500).1 = 300 ∧
     ((UpdateWindowScheduler.mk 21600 82800 60 5 0).record_update 82500).2.next_update_at
        = 82800 ∧
     ((UpdateWindowScheduler.mk 21600 82800 60 5 0).record_update 82500).2.should_update_now
        82800 = true ∧
     (((UpdateWindowScheduler.mk 21600 82800 60 5 0).record_update 82500).2.record_update
        82800).1 = 3600 ∧
     (((UpdateWindowScheduler.mk 21600 82800 60 5 0).record_update 82500).2.record_update
        82800).2.next_update_at = 86400) := by
  refine ⟨⟨rfl, rfl, ?_⟩, by decide⟩
  intro n
  simp [UpdateWindowScheduler.record_update, UpdateWindowScheduler.is_daytime]

/-!  ## Theorems about the backoff scheduler -/

theorem record_failure_fields (s : RetryScheduler) (now : Nat) :
    (s.record_failure now).2.attempt_count = s.attempt_count + 1 ∧
    (s.record_failure now).2.started_at = some (s.started_at.getD now) ∧
    (s.record_failure now).2.max_retry_hours = s.max_retry_hours ∧
    (s.record_failure now).2.phase_1_attempts = s.phase_1_attempts ∧
    (s.record_failure now).2.phase_2_attempts = s.phase_2_attempts := by
  unfold RetryScheduler.record_failure
  dsimp only
  split_ifs <;> simp

/-- A `record_failure` whose elapsed streak time exceeds the maximum yields
the exhausted state and the sentinel interval. -/
theorem record_failure_exhausts (s : RetryScheduler) (now t0 : Nat)
    (hst : s.started_at = some t0) (hgt : s.max_retry_hours * 3600 < now - t0) :
    (s.record_failure now).2.state = RetryState.exhausted ∧
    (s.record_failure now).1 = s.max_retry_hours * 3600 := by
  unfold RetryScheduler.record_failure
  dsimp only
  rw [hst]
  simp only [Option.getD_some]
  rw [if_pos hgt]
  exact ⟨rfl, rfl⟩

theorem applyFailures_append_single (s : RetryScheduler) (l : List Nat) (t : Nat) :
    applyFailures s (l ++ [t]) = ((applyFailures s l).record_failure t).2 := by
  simp [applyFailures]

/-- State of the scheduler after the first `i` failures of a trace: the
attempt count is `i`, the configuration fields are untouched, and
`started_at` is the first failure time (set once, on the first failure). -/
theorem applyFailures_prefix_inv (maxH : Nat) (ts : List Nat) (i : Nat) (hi : i ≤ ts.length) :
    (applyFailures (RetryScheduler.init maxH) (ts.take i)).attempt_count = i ∧
    (applyFailures (RetryScheduler.init maxH) (ts.take i)).max_retry_hours = maxH ∧
    (applyFailures (RetryScheduler.init maxH) (ts.take i)).phase_1_attempts = 5 ∧
    (applyFailures (RetryScheduler.init maxH) (ts.take i)).phase_2_attempts = 12 ∧
    (applyFailures (RetryScheduler.init maxH) (ts.take i)).started_at
      = (if i = 0 then none else some (ts.getD 0 0)) := by
  induction i with
  | zero => simp [applyFailures, RetryScheduler.init]
  | succ n ih =>
      have hn : n < ts.length := Nat.lt_of_succ_le hi
      obtain ⟨ha, hm, hp1, hp2, hst⟩ := ih (Nat.le_of_lt hn)
      have htake : ts.take (n + 1) = ts.take n ++ [ts.getD n 0] := by
        rw [List.take_succ]
        congr 1
        rw [List.getD_eq_getElem _ _ hn]
        simp [List.getElem?_eq_getElem hn]
      rw [htake, applyFailures_append_single]
      obtain ⟨fa, fs, fm, fp1, fp2⟩ :=
        record_failure_fields (applyFailures (RetryScheduler.init maxH) (ts.take n)) (ts.getD n 0)
      refine ⟨by rw [fa, ha], by rw [fm, hm], by rw [fp1, hp1], by rw [fp2, hp2], ?_⟩
      rw [fs, hst]
      by_cases h0 : n = 0
      · subst h0
        simp
      · simp [h0]

theorem sorted_getD_mono (ts : List Nat) (hs : List.Sorted (fun a b => a ≤ b) ts)
    (i j : Nat) (hij : i ≤ j) (hj : j < ts.length) :
    ts.getD i 0 ≤ ts.getD j 0 := by
  rcases Nat.eq_or_lt_of_le hij with rfl | hlt
  · exact Nat.le_refl _
  · have hi : i < ts.length := Nat.lt_trans hlt hj
    rw [List.getD_eq_getElem _ _ hi, List.getD_eq_getElem _ _ hj]
    exact List.Sorted.rel_get_of_lt hs hlt

/-- Full characterization of the `i`-th `record_failure` of a failure trace:
the attempt count becomes `i + 1`; if the elapsed streak time at that call
exceeds `max_retry_hours` the state is exhausted and the sentinel interval
(the max streak duration itself) is returned; otherwise the state and the
interval follow the attempt-count phase table of the source. -/
theorem failStep_spec (maxH : Nat) (ts : List Nat) (i : Nat) (hi : i < ts.length) :
    (failStep maxH ts i).2.attempt_count = i + 1 ∧
    (failStep maxH ts i).2.state =
      (if maxH * 3600 < ts.getD i 0 - ts.getD 0 0 then RetryState.exhausted
       else if i + 1 ≤ 5 then RetryState.backoff1m
       else if i + 1 ≤ 17 then RetryState.backoff5m
       else RetryState.backoff10m) ∧
    (failStep maxH ts i).1 =
      (if maxH * 3600 < ts.getD i 0 - ts.getD 0 0 then maxH * 3600
       else if i + 1 ≤ 5 then 60
       else if i + 1 ≤ 17 then 300
       else 600) := by
  obtain ⟨ha, hm, hp1, hp2, hst⟩ := applyFailures_prefix_inv maxH ts i (Nat.le_of_lt hi)
  have hstart :
      (applyFailures (RetryScheduler.init maxH) (ts.take i)).started_at.getD (ts.getD i 0)
        = ts.getD 0 0 := by
    rw [hst]
    by_cases h0 : i = 0
    · subst h0
      simp
    · simp [h0]
  unfold failStep RetryScheduler.record_failure
  dsimp only
  rw [hstart, ha, hm, hp1, hp2]
  have h512 : (5 : Nat) + 12 = 17 := rfl
  rw [h512]
  refine ⟨?_, ?_, ?_⟩ <;> split_ifs <;> rfl

/-- C2: along every trace of `record_failure` calls at nondecreasing times
`ts` (starting from a fresh scheduler), the `i`-th call (0-based) yields
attempt count `i + 1`; while the elapsed streak time (time of the call minus
the first failure time) is at most `maxStreakDuration = max_retry_hours * 3600`
seconds, attempt counts 1..5 give state `BACKOFF_1_MIN` and a 1-minute
interval, 6..17 give `BACKOFF_5_MIN` and 5 minutes, and 18+ give
`BACKOFF_10_MIN` and 10 minutes (defaults `phase_1_attempts = 5`,
`phase_2_attempts = 12`); once the elapsed time exceeds the maximum, the state
is `BACKOFF_EXHAUSTED` regardless of attempt count, the returned interval is
the sentinel `max_retry_hours * 3600` itself, and every later call of the
trace is again `BACKOFF_EXHAUSTED`. -/
theorem retry_backoff_phase_table (maxH : Nat) (ts : List Nat)
    (hs : List.Sorted (fun a b => a ≤ b) ts) (i : Nat) (hi : i < ts.length) :
    (failStep maxH ts i).2.attempt_count = i + 1 ∧
    (ts.getD i 0 - ts.getD 0 0 ≤ maxH * 3600 →
      ((i + 1 ≤ 5 →
          (failStep maxH ts i).2.state = RetryState.backoff1m ∧
          (failStep maxH ts i).1 = 60) ∧
       (5 < i + 1 → i + 1 ≤ 17 →
          (failStep maxH ts i).2.state = RetryState.backoff5m ∧
          (failStep maxH ts i).1 = 300) ∧
       (17 < i + 1 →
          (failStep maxH ts i).2.state = RetryState.backoff10m ∧
          (failStep maxH ts i).1 = 600))) ∧
    (maxH * 3600 < ts.getD i 0 - ts.getD 0 0 →
      ((failStep maxH ts i).2.state = RetryState.exhausted ∧
       (failStep maxH ts i).1 = maxH * 3600 ∧
       ∀ j, i ≤ j → j < ts.length →
         (failStep maxH ts j).2.state = RetryState.exhausted)) := by
  obtain ⟨ha, hstate, hint⟩ := failStep_spec maxH ts i hi
  refine ⟨ha, ?_, ?_⟩
  · intro hle
    have hcond : ¬ maxH * 3600 < ts.getD i 0 - ts.getD 0 0 := by omega
    refine ⟨?_, ?_, ?_⟩
    · intro h5
      rw [hstate, hint, if_neg hcond, if_neg hcond, if_pos h5, if_pos h5]
      exact ⟨rfl, rfl⟩
    · intro h5 h17
      have hn5 : ¬ i + 1 ≤ 5 := by omega
      rw [hstate, hint, if_neg hcond, if_neg hcond, if_neg hn5, if_neg hn5,
        if_pos h17, if_pos h17]
      exact ⟨rfl, rfl⟩
    · intro h17
      have hn5 : ¬ i + 1 ≤ 5 := by omega
      have hn17 : ¬ i + 1 ≤ 17 := by omega
      rw [hstate, hint, if_neg hcond, if_neg hcond, if_neg hn5, if_neg hn5,
        if_neg hn17, if_neg hn17]
      exact ⟨rfl, rfl⟩
  · intro hgt
    refine ⟨by rw [hstate, if_pos hgt], by rw [hint, if_pos hgt], ?_⟩
    intro j hij hj
    obtain ⟨_, hstatej, _⟩ := failStep_spec maxH ts j hj
    have hmono : ts.getD i 0 ≤ ts.getD j 0 := sorted_getD_mono ts hs i j hij hj
    have hgtj : maxH * 3600 < ts.getD j 0 - ts.getD 0 0 := by omega
    rw [hstatej, if_pos hgtj]

/-- C2 (witness): the phase table applied to the concrete trace
`[0, 60, 120]` at its third call: elapsed 120 s ≤ 24 h, attempt count 3,
state `BACKOFF_1_MIN`, interval 60 s. -/
theorem retry_backoff_phase_table_witness :
    (failStep 24 [0, 60, 120] 2).2.attempt_count = 3 ∧
    (failStep 24 [0, 60, 120] 2).2.state = RetryState.backoff1m ∧
    (failStep 24 [0, 60, 120] 2).1 = 60 := by
  obtain ⟨ha, hrest, _⟩ :=
    retry_backoff_phase_table 24 [0, 60, 120] (by decide) 2 (by decide)
  obtain ⟨h1, _, _⟩ := hrest (by decide)
  obtain ⟨hst, hiv⟩ := h1 (by decide)
  exact ⟨ha, hst, hiv⟩

/-- C7: the invariant `attemptCount = 0 ⇔ state = Idle` holds at construction
and after every `record_failure`, `record_success` and `reset`;
`record_success` always yields `attemptCount = 0` and state `Idle` whatever
the prior state (`Exhausted` included), and `reset` has the identical effect. -/
theorem retry_idle_invariant (maxH : Nat) :
    retryIdleInv (RetryScheduler.init maxH) ∧
    (∀ (s : RetryScheduler) (now : Nat), retryIdleInv (s.record_failure now).2) ∧
    (∀ s : RetryScheduler,
       retryIdleInv s.record_success ∧
       s.record_success.attempt_count = 0 ∧
       s.record_success.state = RetryState.idle) ∧
    (∀ s : RetryScheduler, s.reset = s.record_success) := by
  refine ⟨by simp [retryIdleInv, RetryScheduler.init], ?_, ?_, ?_⟩
  · intro s now
    unfold RetryScheduler.record_failure retryIdleInv
    dsimp only
    split_ifs <;> simp
  · intro s
    simp [retryIdleInv, RetryScheduler.record_success, RetryScheduler.reset]
  · intro s
    rfl

/-!  ## Orchestrator claims -/

/-- C1 (counterexample): a streak exhausted by a failure 25 h after
`streakStartedAt`, with the cadence gate closed at `now = 150000`
(`should_update_now` false since `next_update_at = 200000`): `run_cycle`
returns on the early-skip path with no error display, no diagnostic write and
no state change — refuting the claim that the error-display path and a
diagnostic write happen even when the cadence window suppresses action. -/
theorem exhausted_gate_counterexample :
    gatedErrorService.retry_scheduler.is_retry_exhausted = true ∧
    gatedErrorService.update_scheduler.should_update_now 150000 = false ∧
    (gatedErrorService.run_cycle 150000 failEnv).skipped = true ∧
    (gatedErrorService.run_cycle 150000 failEnv).retval = true ∧
    (gatedErrorService.run_cycle 150000 failEnv).displayWrites = [] ∧
    (gatedErrorService.run_cycle 150000 failEnv).report = none ∧
    (gatedErrorService.run_cycle 150000 failEnv).svc = gatedErrorService := by
  decide

/-- C1 (amended): `run_cycle` is gated on the cadence check first, even when
the backoff streak is exhausted: if `should_update_now(now)` is false the
cycle is skipped with no error display, no diagnostic write and no state
change.  When the gate is open, the fetch fails again and the streak's
elapsed time exceeds the maximum (which is preserved once true, since failure
cycles never advance `next_update_at` and the streak start is retained), the
cycle takes the error-display path — the fixed error pattern to all four
matrices — returns `False`, and writes the diagnostic report exactly when the
error render succeeds and a diagnostics directory is configured. -/
theorem exhausted_cycle_gated (svc : WeatherDisplayService) (now : Nat) (env : CycleEnv)
    (hex : svc.retry_scheduler.is_retry_exhausted = true) :
    (svc.update_scheduler.should_update_now now = false →
      (svc.run_cycle now env).skipped = true ∧
      (svc.run_cycle now env).displayWrites = [] ∧
      (svc.run_cycle now env).report = none ∧
      (svc.run_cycle now env).svc = svc) ∧
    (svc.update_scheduler.should_update_now now = true →
     fetchTruthy env.fetchResult = false →
     (∃ t0, svc.retry_scheduler.started_at = some t0 ∧
        svc.retry_scheduler.max_retry_hours * 3600 < now - t0) →
      (svc.run_cycle now env).skipped = false ∧
      (svc.run_cycle now env).retval = false ∧
      (svc.run_cycle now env).displayWrites
        = [DisplayWrite.errorPattern (List.replicate 4 errorBitmap)] ∧
      (svc.run_cycle now env).report
        = (if env.errorRenderOk then
            ({ svc with retry_scheduler := (svc.retry_scheduler.record_failure now).2 } :
              WeatherDisplayService).save_error_diagnostics env.nowIso "Retries exceeded"
           else none)) := by
  constructor
  · intro hgate
    rw [run_cycle_skip svc now env hgate]
    exact ⟨rfl, rfl, rfl, rfl⟩
  · rintro hgate hfetch ⟨t0, hst, hgt⟩
    have hexh : (svc.retry_scheduler.record_failure now).2.is_retry_exhausted = true := by
      obtain ⟨hs, _⟩ := record_failure_exhausts svc.retry_scheduler now t0 hst hgt
      simp [RetryScheduler.is_retry_exhausted, hs]
    rw [run_cycle_fail_exhausted svc now env hgate hfetch hexh]
    exact ⟨rfl, rfl, rfl, rfl⟩

/-- C1 (witness): the amended theorem applied to the concrete exhausted
service with the gate closed: the cycle is skipped unchanged. -/
theorem exhausted_cycle_gated_witness :
    (gatedErrorService.run_cycle 150000 failEnv).skipped = true ∧
    (gatedErrorService.run_cycle 150000 failEnv).displayWrites = [] ∧
    (gatedErrorService.run_cycle 150000 failEnv).report = none ∧
    (gatedErrorService.run_cycle 150000 failEnv).svc = gatedErrorService :=
  (exhausted_cycle_gated gatedErrorService 150000 failEnv (by decide)).1 (by decide)

/-- C5 (counterexample): from a backoff state two failures into a streak
(`BACKOFF_1_MIN`, attempt count 2), a cycle whose fetch succeeds and whose
render fails returns `False` but does *not* leave the backoff scheduler
unchanged: the successful fetch runs `record_success` before the render, so
the streak is reset to `IDLE` with attempt count 0. -/
theorem render_failure_frame_counterexample :
    phase1Service.retry_scheduler.attempt_count = 2 ∧
    phase1Service.retry_scheduler.state = RetryState.backoff1m ∧
    (phase1Service.run_cycle 100 renderFailEnv).retval = false ∧
    (phase1Service.run_cycle 100 renderFailEnv).svc.retry_scheduler.attempt_count = 0 ∧
    (phase1Service.run_cycle 100 renderFailEnv).svc.retry_scheduler.state
      = RetryState.idle ∧
    ¬ (phase1Service.run_cycle 100 renderFailEnv).svc.retry_scheduler
        = phase1Service.retry_scheduler := by
  decide

/-- C5 (amended): in every cycle where the fetch succeeds but the render
fails, `run_cycle` returns `Ran(false)` and leaves the cadence schedule
untouched (`next_update_at` and the whole cadence scheduler unchanged); the
backoff scheduler is not left unchanged in general — the successful fetch has
already run `record_success`, resetting it to `IDLE`/0 — but when the cycle
starts from a clean backoff state the reset is observably a no-op, so a
subsequent `status()` still shows `idle` and attempt count 0, as in
end-to-end scenario D. -/
theorem render_failure_frame (svc : WeatherDisplayService) (now : Nat) (env : CycleEnv)
    (hgate : svc.update_scheduler.should_update_now now = true)
    (hfetch : fetchTruthy env.fetchResult = true)
    (hrender : env.renderOk = false) :
    (svc.run_cycle now env).retval = false ∧
    (svc.run_cycle now env).skipped = false ∧
    (svc.run_cycle now env).svc.update_scheduler = svc.update_scheduler ∧
    (svc.run_cycle now env).svc.retry_scheduler = svc.retry_scheduler.record_success ∧
    ((svc.run_cycle now env).svc.get_status now).retry_state = "idle" ∧
    ((svc.run_cycle now env).svc.get_status now).retry_attempt = 0 ∧
    (svc.retry_scheduler = RetryScheduler.init svc.retry_scheduler.max_retry_hours →
      (svc.run_cycle now env).svc.retry_scheduler = svc.retry_scheduler) := by
  rw [run_cycle_render_fail svc now env hgate hfetch hrender]
  refine ⟨rfl, rfl, rfl, rfl, rfl, rfl, ?_⟩
  intro hclean
  rw [hclean]
  rfl

/-- C5 (witness): a clean-start service (backoff `IDLE`, attempt count 0,
gate open) whose fetch succeeds and render fails: `run_cycle` returns
`False`, the cadence scheduler is unchanged, and status still shows
`idle`/0. -/
theorem render_failure_frame_witness :
    (({ retry_scheduler := RetryScheduler.init 24
        update_scheduler := UpdateWindowScheduler.mk 21600 82800 60 5 0
        last_forecast := none
        diagnostics_dir := none } : WeatherDisplayService).run_cycle 100
          renderFailEnv).retval = false ∧
    (({ retry_scheduler := RetryScheduler.init 24
        update_scheduler := UpdateWindowScheduler.mk 21600 82800 60 5 0
        last_forecast := none
        diagnostics_dir := none } : WeatherDisplayService).run_cycle 100
          renderFailEnv).svc.update_scheduler = UpdateWindowScheduler.mk 21600 82800 60 5 0 ∧
    ((({ retry_scheduler := RetryScheduler.init 24
         update_scheduler := UpdateWindowScheduler.mk 21600 82800 60 5 0
         last_forecast := none
         diagnostics_dir := none } : WeatherDisplayService).run_cycle 100
          renderFailEnv).svc.get_status 100).retry_state = "idle" ∧
    (({ retry_scheduler := RetryScheduler.init 24
        update_scheduler := UpdateWindowScheduler.mk 21600 82800 60 5 0
        last_forecast := none
        diagnostics_dir := none } : WeatherDisplayService).run_cycle 100
          renderFailEnv).svc.retry_scheduler = RetryScheduler.init 24 := by
  obtain ⟨h1, _, h3, _, h5, _, h7⟩ :=
    render_failure_frame
      { retry_scheduler := RetryScheduler.init 24
        update_scheduler := UpdateWindowScheduler.mk 21600 82800 60 5 0
        last_forecast := none
        diagnostics_dir := none } 100 renderFailEnv (by decide) (by decide) (by decide)
  exact ⟨h1, h3, h5, h7 rfl⟩

/-- C6 (counterexample): a fetch-failure cycle at `now = 90000 s` (25 h into
the streak) exhausts the backoff; the error-display path is invoked, but the
error render fails, so *no* diagnostic report is written even though a
diagnostics directory is configured and a last-known forecast exists —
refuting the claim that every exhausted fetch-failure cycle writes a
`DiagnosticReport`. -/
theorem exhausted_diag_write_counterexample :
    (dueService.run_cycle 90000 errorRenderFailEnv).svc.retry_scheduler.state
      = RetryState.exhausted ∧
    (dueService.run_cycle 90000 errorRenderFailEnv).displayWrites
      = [DisplayWrite.errorPattern (List.replicate 4 errorBitmap)] ∧
    (dueService.run_cycle 90000 errorRenderFailEnv).retval = false ∧
    (dueService.run_cycle 90000 errorRenderFailEnv).report = none := by
  decide

/-- C6 (amended): in a fetch-failure cycle where `record_failure` leaves the
scheduler exhausted, `run_cycle` invokes the error-display path — rendering
the fixed X-pattern error bitmap to all four display surfaces — and returns
`Ran(false)`; the `DiagnosticReport` (which, when produced, carries the
last-known-forecast snapshot, or none if no fetch ever succeeded, and the
error message) is written only when the error-pattern render succeeds, and
only when a diagnostics directory is configured.  In every non-exhausted
fetch-failure cycle the display is left exactly as it is (no render call at
all), no report is written, and `run_cycle` returns `Ran(true)`. -/
theorem fetch_failure_cycle (svc : WeatherDisplayService) (now : Nat) (env : CycleEnv)
    (hgate : svc.update_scheduler.should_update_now now = true)
    (hfetch : fetchTruthy env.fetchResult = false) :
    ((svc.retry_scheduler.record_failure now).2.state = RetryState.exhausted →
       (svc.run_cycle now env).retval = false ∧
       (svc.run_cycle now env).displayWrites
         = [DisplayWrite.errorPattern (List.replicate 4 errorBitmap)] ∧
       (svc.run_cycle now env).report
         = (if env.errorRenderOk then
             ({ svc with retry_scheduler := (svc.retry_scheduler.record_failure now).2 } :
               WeatherDisplayService).save_error_diagnostics env.nowIso "Retries exceeded"
            else none) ∧
       (∀ r, (svc.run_cycle now env).report = some r →
          r.last_forecast = truthyForecast svc.last_forecast ∧
          r.error = "Retries exceeded")) ∧
    ((svc.retry_scheduler.record_failure now).2.state ≠ RetryState.exhausted →
       (svc.run_cycle now env).retval = true ∧
       (svc.run_cycle now env).displayWrites = [] ∧
       (svc.run_cycle now env).report = none ∧
       (svc.run_cycle now env).svc.last_forecast = svc.last_forecast) := by
  constructor
  · intro hexstate
    have hex : (svc.retry_scheduler.record_failure now).2.is_retry_exhausted = true := by
      simp [RetryScheduler.is_retry_exhausted, hexstate]
    rw [run_cycle_fail_exhausted svc now env hgate hfetch hex]
    refine ⟨rfl, rfl, rfl, ?_⟩
    intro r hr
    dsimp only at hr
    split_ifs at hr
    · unfold WeatherDisplayService.save_error_diagnostics at hr
      dsimp only at hr
      rcases hdir : svc.diagnostics_dir with _ | d
      · rw [hdir] at hr
        simp at hr
      · rw [hdir] at hr
        simp only [Option.some.injEq] at hr
        rw [← hr]
        exact ⟨rfl, rfl⟩
  · intro hnex
    have hex : (svc.retry_scheduler.record_failure now).2.is_retry_exhausted = false := by
      simp [RetryScheduler.is_retry_exhausted, hnex]
    rw [run_cycle_fail_waiting svc now env hgate hfetch hex]
    exact ⟨rfl, rfl, rfl, rfl⟩

/-- C6 (witness): the exhausting cycle on the concrete service with a
successful error render: error pattern displayed, `False` returned, and a
report carrying the last-known forecast `[7, 8]` written. -/
theorem fetch_failure_cycle_witness :
    (dueService.run_cycle 90000 failEnv).retval = false ∧
    (dueService.run_cycle 90000 failEnv).displayWrites
      = [DisplayWrite.errorPattern (List.replicate 4 errorBitmap)] ∧
    (DiagReport.mk "2026-10-12T14-30-00" "Retries exceeded" "backoff_exhausted" 2
        (some [7, 8])).last_forecast = truthyForecast dueService.last_forecast ∧
    (DiagReport.mk "2026-10-12T14-30-00" "Retries exceeded" "backoff_exhausted" 2
        (some [7, 8])).error = "Retries exceeded" := by
  obtain ⟨h1, h2, _, h4⟩ :=
    (fetch_failure_cycle dueService 90000 failEnv (by decide) (by decide)).1 (by decide)
  obtain ⟨h5, h6⟩ := h4
    (DiagReport.mk "2026-10-12T14-30-00" "Retries exceeded" "backoff_exhausted" 2
      (some [7, 8])) (by decide)
  exact ⟨h1, h2, h5, h6⟩

/-- C9: a fetch-failure cycle (exhausted or not) leaves the cadence
scheduler's `next_update_at` — indeed the whole cadence scheduler — unchanged;
since the cycle reached the fetch only because `now ≥ next_update_at`,
`should_update_now` stays true at every later time, and every subsequent
`run_cycle` invocation passes the gate and attempts another fetch
immediately: the interval returned by `record_failure` never delays the next
attempt (the cadence state does not depend on it). -/
theorem fetch_failure_keeps_cadence (svc : WeatherDisplayService) (now : Nat) (env : CycleEnv)
    (hgate : svc.update_scheduler.should_update_now now = true)
    (hfetch : fetchTruthy env.fetchResult = false) :
    (svc.run_cycle now env).svc.update_scheduler = svc.update_scheduler ∧
    (svc.run_cycle now env).svc.update_scheduler.next_update_at
      = svc.update_scheduler.next_update_at ∧
    (svc.run_cycle now env).fetchAttempted = true ∧
    (∀ t2, now ≤ t2 →
       (svc.run_cycle now env).svc.update_scheduler.should_update_now t2 = true) ∧
    (∀ t2, now ≤ t2 → ∀ env2 : CycleEnv,
       ((svc.run_cycle now env).svc.run_cycle t2 env2).skipped = false ∧
       ((svc.run_cycle now env).svc.run_cycle t2 env2).fetchAttempted = true) := by
  have hupd : (svc.run_cycle now env).svc.update_scheduler = svc.update_scheduler := by
    rcases hex : (svc.retry_scheduler.record_failure now).2.is_retry_exhausted with _ | _
    · rw [run_cycle_fail_waiting svc now env hgate hfetch hex]
    · rw [run_cycle_fail_exhausted svc now env hgate hfetch hex]
  have hnext : ∀ t2, now ≤ t2 →
      (svc.run_cycle now env).svc.update_scheduler.should_update_now t2 = true := by
    intro t2 ht2
    rw [hupd]
    unfold UpdateWindowScheduler.should_update_now at hgate ⊢
    have hle : svc.update_scheduler.next_update_at ≤ now := of_decide_eq_true hgate
    exact decide_eq_true (Nat.le_trans hle ht2)
  refine ⟨hupd, by rw [hupd], (run_cycle_due svc now env hgate).2, hnext, ?_⟩
  intro t2 ht2 env2
  exact run_cycle_due ((svc.run_cycle now env).svc) t2 env2 (hnext t2 ht2)

/-- C9 (witness): the concrete one-failure service: a failing fetch at
`now = 100` leaves the cadence scheduler unchanged and the immediately
following invocation (same time, any environment) again passes the gate and
attempts a fetch. -/
theorem fetch_failure_keeps_cadence_witness :
    (dueService.run_cycle 100 failEnv).svc.update_scheduler
      = dueService.update_scheduler ∧
    (dueService.run_cycle 100 failEnv).svc.update_scheduler.should_update_now 200 = true ∧
    ((dueService.run_cycle 100 failEnv).svc.run_cycle 200 failEnv).skipped = false ∧
    ((dueService.run_cycle 100 failEnv).svc.run_cycle 200 failEnv).fetchAttempted = true := by
  obtain ⟨h1, _, _, h4, h5⟩ :=
    fetch_failure_keeps_cadence dueService 100 failEnv (by decide) (by decide)
  obtain ⟨h6, h7⟩ := h5 200 (by decide) failEnv
  exact ⟨h1, h4 200 (by decide), h6, h7⟩

/-- C10: if the orchestrator has `diagnostics_dir = None`,
`_save_error_diagnostics` returns without writing, so no cycle ever produces
a diagnostic report; the exhaustion error display still renders (the cycle's
display writes do not depend on the diagnostics directory at all); and a
report is produced in a cycle only when the error-pattern render succeeded —
that cycle's display writes being exactly the error pattern. -/
theorem diagnostics_gating :
    (∀ (svc : WeatherDisplayService) (now : Nat) (env : CycleEnv),
       svc.diagnostics_dir = none →
         (svc.run_cycle now env).report = none ∧
         (∀ iso msg, svc.save_error_diagnostics iso msg = none)) ∧
    (∀ (svc : WeatherDisplayService) (now : Nat) (env : CycleEnv),
       (svc.run_cycle now env).report.isSome = true →
         env.errorRenderOk = true ∧
         (svc.run_cycle now env).displayWrites
           = [DisplayWrite.errorPattern (List.replicate 4 errorBitmap)]) ∧
    (∀ (svc : WeatherDisplayService) (now : Nat) (env : CycleEnv),
       (({ svc with diagnostics_dir := none } :
           WeatherDisplayService).run_cycle now env).displayWrites
         = (svc.run_cycle now env).displayWrites) := by
  have hsave : ∀ (svc : WeatherDisplayService), svc.diagnostics_dir = none →
      ∀ iso msg, svc.save_error_diagnostics iso msg = none := by
    intro svc hdir iso msg
    unfold WeatherDisplayService.save_error_diagnostics
    rw [hdir]
  refine ⟨?_, ?_, ?_⟩
  · intro svc now env hdir
    refine ⟨?_, hsave svc hdir⟩
    unfold WeatherDisplayService.run_cycle WeatherDisplayService.display_error
    dsimp only
    split_ifs <;> try rfl
    all_goals
      have h9 := hsave { svc with retry_scheduler := (svc.retry_scheduler.record_failure now).2 }
        hdir env.nowIso "Retries exceeded"
      simpa using h9
  · intro svc now env hrep
    by_cases hgate : svc.update_scheduler.should_update_now now = true
    · by_cases hfetch : fetchTruthy env.fetchResult = true
      · by_cases hrender : env.renderOk = true
        · rw [run_cycle_render_ok svc now env hgate hfetch hrender] at hrep
          simp at hrep
        · have hr2 : env.renderOk = false := by
            simpa using hrender
          rw [run_cycle_render_fail svc now env hgate hfetch hr2] at hrep
          simp at hrep
      · have hf2 : fetchTruthy env.fetchResult = false := by
          simpa using hfetch
        by_cases hex : (svc.retry_scheduler.record_failure now).2.is_retry_exhausted = true
        · rw [run_cycle_fail_exhausted svc now env hgate hf2 hex] at hrep ⊢
          dsimp only at hrep ⊢
          by_cases hrok : env.errorRenderOk = true
          · exact ⟨hrok, rfl⟩
          · rw [if_neg hrok] at hrep
            simp at hrep
        · have hex2 : (svc.retry_scheduler.record_failure now).2.is_retry_exhausted = false := by
            simpa using hex
          rw [run_cycle_fail_waiting svc now env hgate hf2 hex2] at hrep
          simp at hrep
    · have hg2 : svc.update_scheduler.should_update_now now = false := by
        simpa using hgate
      rw [run_cycle_skip svc now env hg2] at hrep
      simp at hrep
  · intro svc now env
    unfold WeatherDisplayService.run_cycle WeatherDisplayService.display_error
    dsimp only
    split_ifs <;> rfl

/-- C10 (witness): the exhausting cycle run with `diagnostics_dir = None`:
no report is produced, while the report-only-on-successful-error-render
direction is exercised on the configured service. -/
theorem diagnostics_gating_witness :
    (({ retry_scheduler := oneFailureRetry
        update_scheduler := UpdateWindowScheduler.mk 21600 82800 60 5 0
        last_forecast := some [7, 8]
        diagnostics_dir := none } : WeatherDisplayService).run_cycle 90000 failEnv).report
      = none ∧
    (dueService.run_cycle 90000 failEnv).displayWrites
      = [DisplayWrite.errorPattern (List.replicate 4 errorBitmap)] := by
  refine ⟨(diagnostics_gating.1
    { retry_scheduler := oneFailureRetry
      update_scheduler := UpdateWindowScheduler.mk 21600 82800 60 5 0
      last_forecast := some [7, 8]
      diagnostics_dir := none } 90000 failEnv rfl).1, ?_⟩
  exact ((diagnostics_gating.2.1 dueService 90000 failEnv) (by decide)).2

/-- C8 (counterexample): the report produced by the exhausting cycle when the
wall clock reads `2026-10-12T14:30:00` carries the timestamp
`"2026-10-12T14-30-00"` — the `isoformat()` string with every colon replaced
by a hyphen — which is not an ISO-8601 date-time (while the unmangled reading
is), refuting the claim that the `timestamp` field is an ISO-8601 string. -/
theorem diag_timestamp_counterexample :
    ((dueService.run_cycle 90000 failEnv).report.map DiagReport.timestamp
      = some "2026-10-12T14-30-00") ∧
    isISO8601DateTime "2026-10-12T14-30-00" = false ∧
    isISO8601DateTime "2026-10-12T14:30:00" = true := by
  decide

/-- C8 (amended): every report produced by a `run_cycle` is a record with
exactly the five fields `timestamp`, `error`, `retry_state`, `attempt_count`,
`last_forecast` (the `DiagReport` structure); `retry_state` is one of the five
lowercase state tags (on this path always `"backoff_exhausted"`),
`attempt_count` is the scheduler's attempt count after the failure,
`last_forecast` is the nullable last-known-forecast snapshot, and `timestamp`
is the wall clock's `isoformat()` string with each colon replaced by a hyphen
— a filename-safe variant, not an ISO-8601 string. -/
theorem diag_report_shape (svc : WeatherDisplayService) (now : Nat) (env : CycleEnv)
    (r : DiagReport) (h : (svc.run_cycle now env).report = some r) :
    r.timestamp = pyReplaceColon env.nowIso ∧
    r.error = "Retries exceeded" ∧
    (r.retry_state = "idle" ∨ r.retry_state = "backoff_1m" ∨
     r.retry_state = "backoff_5m" ∨ r.retry_state = "backoff_10m" ∨
     r.retry_state = "backoff_exhausted") ∧
    r.retry_state = "backoff_exhausted" ∧
    r.attempt_count = svc.retry_scheduler.attempt_count + 1 ∧
    r.last_forecast = truthyForecast svc.last_forecast := by
  by_cases hgate : svc.update_scheduler.should_update_now now = true
  · by_cases hfetch : fetchTruthy env.fetchResult = true
    · by_cases hrender : env.renderOk = true
      · rw [run_cycle_render_ok svc now env hgate hfetch hrender] at h
        simp at h
      · have hr2 : env.renderOk = false := by
          simpa using hrender
        rw [run_cycle_render_fail svc now env hgate hfetch hr2] at h
        simp at h
    · have hf2 : fetchTruthy env.fetchResult = false := by
        simpa using hfetch
      by_cases hex : (svc.retry_scheduler.record_failure now).2.is_retry_exhausted = true
      · rw [run_cycle_fail_exhausted svc now env hgate hf2 hex] at h
        dsimp only at h
        by_cases hrok : env.errorRenderOk = true
        · rw [if_pos hrok] at h
          unfold WeatherDisplayService.save_error_diagnostics at h
          dsimp only at h
          rcases hdir : svc.diagnostics_dir with _ | d
          · rw [hdir] at h
            simp at h
          · rw [hdir] at h
            simp only [Option.some.injEq] at h
            have hstate : (svc.retry_scheduler.record_failure now).2.state
                = RetryState.exhausted := by
              simpa [RetryScheduler.is_retry_exhausted] using hex
            have hcount := (record_failure_fields svc.retry_scheduler now).1
            rw [← h]
            refine ⟨rfl, rfl, ?_, ?_, ?_, rfl⟩
            · right; right; right; right
              dsimp only
              rw [hstate]
              rfl
            · dsimp only
              rw [hstate]
              rfl
            · dsimp only
              rw [hcount]
        · rw [if_neg hrok] at h
          simp at h
      · have hex2 : (svc.retry_scheduler.record_failure now).2.is_retry_exhausted = false := by
          simpa using hex
        rw [run_cycle_fail_waiting svc now env hgate hf2 hex2] at h
        simp at h
  · have hg2 : svc.update_scheduler.should_update_now now = false := by
      simpa using hgate
    rw [run_cycle_skip svc now env hg2] at h
    simp at h

/-- C8 (witness): the amended shape instantiated on the concrete exhausting
cycle: the produced report has the colon-replaced timestamp, the lowercase
exhausted tag, attempt count 2 and the forecast snapshot `[7, 8]`. -/
theorem diag_report_shape_witness :
    (DiagReport.mk "2026-10-12T14-30-00" "Retries exceeded" "backoff_exhausted" 2
        (some [7, 8])).timestamp = pyReplaceColon failEnv.nowIso ∧
    (DiagReport.mk "2026-10-12T14-30-00" "Retries exceeded" "backoff_exhausted" 2
        (some [7, 8])).retry_state = "backoff_exhausted" ∧
    (DiagReport.mk "2026-10-12T14-30-00" "Retries exceeded" "backoff_exhausted" 2
        (some [7, 8])).attempt_count = dueService.retry_scheduler.attempt_count + 1 ∧
    (DiagReport.mk "2026-10-12T14-30-00" "Retries exceeded" "backoff_exhausted" 2
        (some [7, 8])).last_forecast = truthyForecast dueService.last_forecast := by
  obtain ⟨h1, _, _, h4, h5, h6⟩ := diag_report_shape dueService 90000 failEnv
    (DiagReport.mk "2026-10-12T14-30-00" "Retries exceeded" "backoff_exhausted" 2
      (some [7, 8])) (by decide)
  exact ⟨h1, h4, h5, h6⟩

end Weatherbox
